import Mathlib

/-!
Shallow embedding of src/src-tauri/src/main.rs, the native backend of the
NYX OS desktop shell.  The file is a set of Tauri command handlers plus one
system tray event dispatcher.  Host framework (Tauri / std) calls are
modelled by environment structures whose fields record the outcome each
framework call would produce; a framework error is represented by the string
its Display implementation renders, so that the Rust conversion
e.to_string() becomes FrameworkError.toString.  Commands whose claims speak
about what was attempted additionally return a trace of effects.
-/

/-- A host framework error, carrying the string that its Rust Display
implementation renders. -/
structure FrameworkError where
  message : String
  deriving DecidableEq, Repr

/-- The Rust conversion e.to_string() applied to a framework error. -/
def FrameworkError.toString (e : FrameworkError) : String := e.message

/-- The compile time target operating system: the documented values of
std::env::consts::OS. -/
inductive TargetOS where
  | linux
  | macos
  | ios
  | freebsd
  | dragonfly
  | netbsd
  | openbsd
  | solaris
  | android
  | windows
  deriving DecidableEq, Repr

/-- The string std::env::consts::OS evaluates to on each target. -/
def TargetOS.consts_OS : TargetOS → String
  | .linux => "linux"
  | .macos => "macos"
  | .ios => "ios"
  | .freebsd => "freebsd"
  | .dragonfly => "dragonfly"
  | .netbsd => "netbsd"
  | .openbsd => "openbsd"
  | .solaris => "solaris"
  | .android => "android"
  | .windows => "windows"

/-- The known OS name set of std::env::consts::OS. -/
def knownOSNames : List String :=
  ["linux", "macos", "ios", "freebsd", "dragonfly", "netbsd", "openbsd",
   "solaris", "android", "windows"]

/-- Ambient facts read by get_system_info.  available_parallelism returns
io::Result of NonZeroUsize, modelled as Except of a positive Nat. -/
structure SysEnv where
  os : TargetOS
  arch : String
  availableParallelism : Except FrameworkError { n : Nat // 0 < n }
  hostname : String

/-- The JSON object built by get_system_info (fixed shape). -/
structure SystemInfo where
  platform : String
  arch : String
  cpu_count : Nat
  hostname : String
  deriving DecidableEq, Repr

/-- get_system_info from main.rs lines 7 to 21. -/
def get_system_info (env : SysEnv) : Except String SystemInfo :=
  let cpu_count : Nat :=
    match env.availableParallelism with
    | .ok n => n.val
    | .error _ => 1
  Except.ok
    { platform := env.os.consts_OS,
      arch := env.arch,
      cpu_count := cpu_count,
      hostname := env.hostname }

/-- One entry of the placeholder desktop app list (fixed JSON shape). -/
structure DesktopApp where
  name : String
  path : String
  icon : String
  deriving DecidableEq, Repr

/-- get_desktop_apps from main.rs lines 64 to 86.  The Boolean argument is
the compile time flag cfg!(windows). -/
def get_desktop_apps (isWindows : Bool) : Except String (List DesktopApp) :=
  Except.ok
    [ { name := "File Manager",
        path := if isWindows then "explorer.exe" else "nautilus",
        icon := "folder" },
      { name := "Terminal",
        path := if isWindows then "cmd.exe" else "gnome-terminal",
        icon := "terminal" },
      { name := "Web Browser",
        path := if isWindows then "msedge.exe" else "firefox",
        icon := "globe" } ]

/-- The JSON object built by get_performance_info (fixed shape). -/
structure PerfInfo where
  memory_usage : String
  cpu_usage : String
  timestamp : Int
  deriving DecidableEq, Repr

/-- get_performance_info from main.rs lines 89 to 99.  The argument is the
value chrono::Utc::now().timestamp() reads at the moment of the call. -/
def get_performance_info (now_timestamp : Int) : Except String PerfInfo :=
  Except.ok
    { memory_usage := "Unknown",
      cpu_usage := "Unknown",
      timestamp := now_timestamp }

/-- Observable framework operations a handler attempts, in order. -/
inductive Effect where
  | showWindow (label : String)
  | setFocus (label : String)
  | hideWindow (label : String)
  | closeWindow (label : String)
  | buildWindow (label : String) (title : String) (sized : Bool)
  | emitAll (event : String) (payload : String)
  | exitProcess (code : Nat)
  deriving DecidableEq, Repr

/-- A tauri::Window handle: the outcome each framework method call on this
window would produce. -/
structure Window where
  setAlwaysOnTopRes : Bool → Except FrameworkError Unit
  setFullscreenRes : Bool → Except FrameworkError Unit
  minimizeRes : Except FrameworkError Unit
  maximizeRes : Except FrameworkError Unit
  hideRes : Except FrameworkError Unit
  showRes : Except FrameworkError Unit
  setFocusRes : Except FrameworkError Unit
  closeRes : Except FrameworkError Unit

/-- A tauri::AppHandle: the windows reachable by label and the outcome of
each framework call made through the handle. -/
structure AppHandle where
  getWindow : String → Option Window
  buildWindowRes : String → String → Except FrameworkError Unit
  emitAllRes : String → String → Except FrameworkError Unit
  registerRes : String → Except FrameworkError Unit
  unregisterRes : String → Except FrameworkError Unit

/-- The process spawning facility of std::process::Command.  The invariant
records the OS guarantee that spawning a nonexistent executable fails. -/
structure Sys where
  spawnRes : String → Except FrameworkError Unit
  exeExists : String → Bool
  spawn_fail : ∀ p, exeExists p = false → ∃ e, spawnRes p = Except.error e

/-- set_window_always_on_top from main.rs lines 24 to 27. -/
def set_window_always_on_top (window : Window) (always_on_top : Bool) :
    Except String Unit :=
  match window.setAlwaysOnTopRes always_on_top with
  | .ok u => .ok u
  | .error e => .error e.toString

/-- set_window_fullscreen from main.rs lines 29 to 32. -/
def set_window_fullscreen (window : Window) (fullscreen : Bool) :
    Except String Unit :=
  match window.setFullscreenRes fullscreen with
  | .ok u => .ok u
  | .error e => .error e.toString

/-- minimize_window from main.rs lines 34 to 37. -/
def minimize_window (window : Window) : Except String Unit :=
  match window.minimizeRes with
  | .ok u => .ok u
  | .error e => .error e.toString

/-- maximize_window from main.rs lines 39 to 42. -/
def maximize_window (window : Window) : Except String Unit :=
  match window.maximizeRes with
  | .ok u => .ok u
  | .error e => .error e.toString

/-- hide_window from main.rs lines 44 to 47. -/
def hide_window (window : Window) : Except String Unit :=
  match window.hideRes with
  | .ok u => .ok u
  | .error e => .error e.toString

/-- show_window from main.rs lines 49 to 52. -/
def show_window (window : Window) : Except String Unit :=
  match window.showRes with
  | .ok u => .ok u
  | .error e => .error e.toString

/-- launch_external_app from main.rs lines 55 to 61. -/
def launch_external_app (sys : Sys) (app_path : String) : Except String Unit :=
  match sys.spawnRes app_path with
  | .ok _ => .ok ()
  | .error e => .error ("Failed to launch app: " ++ e.toString)

/-- create_native_window from main.rs lines 102 to 122.  Dim stands for
f64; the handler only tests whether both width and height are present. -/
def create_native_window {Dim : Type} (app_handle : AppHandle)
    (label : String) (title : String)
    (width : Option Dim) (height : Option Dim) :
    Except String Unit × List Effect :=
  let sized := width.isSome && height.isSome
  match app_handle.buildWindowRes label title with
  | .error e =>
      (.error ("Failed to create window: " ++ e.toString),
       [Effect.buildWindow label title sized])
  | .ok _ =>
      match app_handle.emitAllRes "nyx:native-window-created" label with
      | .error e =>
          (.error e.toString,
           [Effect.buildWindow label title sized,
            Effect.emitAll "nyx:native-window-created" label])
      | .ok _ =>
          (.ok (),
           [Effect.buildWindow label title sized,
            Effect.emitAll "nyx:native-window-created" label])

/-- focus_native_window from main.rs lines 124 to 132. -/
def focus_native_window (app_handle : AppHandle) (label : String) :
    Except String Unit × List Effect :=
  match app_handle.getWindow label with
  | some window =>
      match window.showRes with
      | .error e => (.error e.toString, [Effect.showWindow label])
      | .ok _ =>
          match window.setFocusRes with
          | .error e =>
              (.error e.toString,
               [Effect.showWindow label, Effect.setFocus label])
          | .ok _ =>
              (.ok (), [Effect.showWindow label, Effect.setFocus label])
  | none => (.error "Window not found", [])

/-- close_native_window from main.rs lines 134 to 141. -/
def close_native_window (app_handle : AppHandle) (label : String) :
    Except String Unit × List Effect :=
  match app_handle.getWindow label with
  | some window =>
      match window.closeRes with
      | .error e => (.error e.toString, [Effect.closeWindow label])
      | .ok _ => (.ok (), [Effect.closeWindow label])
  | none => (.error "Window not found", [])

/-- The closure registered by register_global_shortcut: the effects it
attempts when the shortcut fires. -/
def shortcut_callback (accelerator : String) : List Effect :=
  [Effect.emitAll "nyx:global-shortcut" accelerator]

/-- register_global_shortcut from main.rs lines 144 to 153.  On success the
second component holds the trace the installed callback produces when the
shortcut fires. -/
def register_global_shortcut (app_handle : AppHandle) (accelerator : String) :
    Except String Unit × Option (List Effect) :=
  match app_handle.registerRes accelerator with
  | .error e =>
      (.error ("Failed to register shortcut: " ++ e.toString), none)
  | .ok _ => (.ok (), some (shortcut_callback accelerator))

/-- unregister_global_shortcut from main.rs lines 155 to 160. -/
def unregister_global_shortcut (app_handle : AppHandle) (accelerator : String) :
    Except String Unit :=
  match app_handle.unregisterRes accelerator with
  | .error e => .error ("Failed to unregister shortcut: " ++ e.toString)
  | .ok _ => .ok ()

/-- The tauri::SystemTrayEvent cases the dispatcher matches on. -/
inductive SystemTrayEvent where
  | LeftClick
  | RightClick
  | DoubleClick
  | MenuItemClick (id : String)
  deriving DecidableEq, Repr

/-- The on_system_tray_event closure from main.rs lines 178 to 204, as the
trace of framework operations it attempts.  Results of the window calls are
discarded by the handler (let _ = ...), so the trace does not depend on
them; std::process::exit terminates the handler, so nothing follows it. -/
def on_system_tray_event (app : AppHandle) (event : SystemTrayEvent) :
    List Effect :=
  match event with
  | .LeftClick =>
      match app.getWindow "main" with
      | some _ => [Effect.showWindow "main", Effect.setFocus "main"]
      | none => []
  | .MenuItemClick id =>
      if id = "quit" then
        [Effect.exitProcess 0]
      else if id = "show" then
        match app.getWindow "main" with
        | some _ => [Effect.showWindow "main", Effect.setFocus "main"]
        | none => []
      else if id = "hide" then
        match app.getWindow "main" with
        | some _ => [Effect.hideWindow "main"]
        | none => []
      else []
  | .RightClick => []
  | .DoubleClick => []

/-- A window on which every framework call succeeds. -/
def winOk : Window :=
  { setAlwaysOnTopRes := fun _ => .ok (),
    setFullscreenRes := fun _ => .ok (),
    minimizeRes := .ok (),
    maximizeRes := .ok (),
    hideRes := .ok (),
    showRes := .ok (),
    setFocusRes := .ok (),
    closeRes := .ok () }

/-- A window on which every framework call fails with message boom. -/
def winBoom : Window :=
  { setAlwaysOnTopRes := fun _ => .error ⟨"boom"⟩,
    setFullscreenRes := fun _ => .error ⟨"boom"⟩,
    minimizeRes := .error ⟨"boom"⟩,
    maximizeRes := .error ⟨"boom"⟩,
    hideRes := .error ⟨"boom"⟩,
    showRes := .error ⟨"boom"⟩,
    setFocusRes := .error ⟨"boom"⟩,
    closeRes := .error ⟨"boom"⟩ }

/-- A handle on which every framework call succeeds and every label is a
window. -/
def appOk : AppHandle :=
  { getWindow := fun _ => some winOk,
    buildWindowRes := fun _ _ => .ok (),
    emitAllRes := fun _ _ => .ok (),
    registerRes := fun _ => .ok (),
    unregisterRes := fun _ => .ok () }

/-- A handle on which every framework call fails with message boom. -/
def appBoom : AppHandle :=
  { getWindow := fun _ => some winBoom,
    buildWindowRes := fun _ _ => .error ⟨"boom"⟩,
    emitAllRes := fun _ _ => .error ⟨"boom"⟩,
    registerRes := fun _ => .error ⟨"boom"⟩,
    unregisterRes := fun _ => .error ⟨"boom"⟩ }

/-- A window whose show call succeeds but whose focus call fails with
message boom. -/
def winFocusBoom : Window :=
  { setAlwaysOnTopRes := fun _ => .ok (),
    setFullscreenRes := fun _ => .ok (),
    minimizeRes := .ok (),
    maximizeRes := .ok (),
    hideRes := .ok (),
    showRes := .ok (),
    setFocusRes := .error ⟨"boom"⟩,
    closeRes := .ok () }

/-- A handle whose windows show fine but fail to take focus. -/
def appFocusBoom : AppHandle :=
  { getWindow := fun _ => some winFocusBoom,
    buildWindowRes := fun _ _ => .ok (),
    emitAllRes := fun _ _ => .ok (),
    registerRes := fun _ => .ok (),
    unregisterRes := fun _ => .ok () }

/-- A handle holding no windows at all. -/
def appEmpty : AppHandle :=
  { getWindow := fun _ => none,
    buildWindowRes := fun _ _ => .ok (),
    emitAllRes := fun _ _ => .ok (),
    registerRes := fun _ => .ok (),
    unregisterRes := fun _ => .ok () }

/-- A process facility where no executable exists and every spawn fails
with message boom. -/
def sysBoom : Sys :=
  { spawnRes := fun _ => .error ⟨"boom"⟩,
    exeExists := fun _ => false,
    spawn_fail := fun _ _ => ⟨⟨"boom"⟩, rfl⟩ }

/-- Claim C1 fails as stated: when spawn fails with message boom, the
command launch_external_app returns an Err string that is the message with
a fixed context added in front, not the framework error message alone. -/
theorem launch_error_not_bare_message :
    sysBoom.spawnRes "/no/such/app" = Except.error ⟨"boom"⟩ ∧
    launch_external_app sysBoom "/no/such/app" =
      Except.error ("Failed to launch app: " ++ FrameworkError.toString ⟨"boom"⟩) ∧
    ("Failed to launch app: " ++ FrameworkError.toString ⟨"boom"⟩) ≠
      FrameworkError.toString ⟨"boom"⟩ := by
  refine ⟨rfl, rfl, ?_⟩
  decide

/-- Claim C1 (amended): when the underlying host framework call fails, every
exposed command returns Err with a string derived from the framework error
message: the six window state commands, the show and focus calls of
focus_native_window, the close call of close_native_window and the emit
call of create_native_window return the message unchanged, while
launch_external_app, the build step of create_native_window,
register_global_shortcut and unregister_global_shortcut put a fixed context
string in front of it. -/
theorem command_error_string_mapping (w : Window) (app : AppHandle)
    (sys : Sys) (e : FrameworkError) :
    (∀ b, w.setAlwaysOnTopRes b = .error e →
      set_window_always_on_top w b = .error e.toString) ∧
    (∀ b, w.setFullscreenRes b = .error e →
      set_window_fullscreen w b = .error e.toString) ∧
    (w.minimizeRes = .error e → minimize_window w = .error e.toString) ∧
    (w.maximizeRes = .error e → maximize_window w = .error e.toString) ∧
    (w.hideRes = .error e → hide_window w = .error e.toString) ∧
    (w.showRes = .error e → show_window w = .error e.toString) ∧
    (∀ p, sys.spawnRes p = .error e →
      launch_external_app sys p =
        .error ("Failed to launch app: " ++ e.toString)) ∧
    (∀ (D : Type) (l t : String) (width height : Option D),
      app.buildWindowRes l t = .error e →
      (create_native_window app l t width height).1 =
        .error ("Failed to create window: " ++ e.toString)) ∧
    (∀ (D : Type) (l t : String) (width height : Option D),
      app.buildWindowRes l t = .ok () →
      app.emitAllRes "nyx:native-window-created" l = .error e →
      (create_native_window app l t width height).1 = .error e.toString) ∧
    (∀ l w2, app.getWindow l = some w2 → w2.showRes = .error e →
      (focus_native_window app l).1 = .error e.toString) ∧
    (∀ l w2, app.getWindow l = some w2 → w2.showRes = .ok () →
      w2.setFocusRes = .error e →
      (focus_native_window app l).1 = .error e.toString) ∧
    (∀ l w2, app.getWindow l = some w2 → w2.closeRes = .error e →
      (close_native_window app l).1 = .error e.toString) ∧
    (∀ a, app.registerRes a = .error e →
      (register_global_shortcut app a).1 =
        .error ("Failed to register shortcut: " ++ e.toString)) ∧
    (∀ a, app.unregisterRes a = .error e →
      unregister_global_shortcut app a =
        .error ("Failed to unregister shortcut: " ++ e.toString)) := by
  refine ⟨?_, ?_, ?_, ?_, ?_, ?_, ?_, ?_, ?_, ?_, ?_, ?_, ?_, ?_⟩
  · intro b h; simp [set_window_always_on_top, h]
  · intro b h; simp [set_window_fullscreen, h]
  · intro h; simp [minimize_window, h]
  · intro h; simp [maximize_window, h]
  · intro h; simp [hide_window, h]
  · intro h; simp [show_window, h]
  · intro p h; simp [launch_external_app, h]
  · intro D l t width height h; simp [create_native_window, h]
  · intro D l t width height h1 h2; simp [create_native_window, h1, h2]
  · intro l w2 h1 h2; simp [focus_native_window, h1, h2]
  · intro l w2 h1 h2 h3; simp [focus_native_window, h1, h2, h3]
  · intro l w2 h1 h2; simp [close_native_window, h1, h2]
  · intro a h; simp [register_global_shortcut, h]
  · intro a h; simp [unregister_global_shortcut, h]

/-- Concrete instance of the amended claim C1 at the environments that fail
with message boom. -/
theorem command_error_string_mapping_witness :
    set_window_always_on_top winBoom true = .error "boom" ∧
    launch_external_app sysBoom "/x" =
      .error ("Failed to launch app: " ++ "boom") ∧
    (create_native_window appBoom "w" "T" (some ()) (some ())).1 =
      .error ("Failed to create window: " ++ "boom") ∧
    (focus_native_window appBoom "main").1 = .error "boom" ∧
    (focus_native_window appFocusBoom "main").1 = .error "boom" ∧
    (register_global_shortcut appBoom "Ctrl+K").1 =
      .error ("Failed to register shortcut: " ++ "boom") := by
  have h := command_error_string_mapping winBoom appBoom sysBoom ⟨"boom"⟩
  obtain ⟨h1, _, _, _, _, _, h7, h8, _, h10, _, _, h13, _⟩ := h
  have hf := command_error_string_mapping winFocusBoom appFocusBoom sysBoom
    ⟨"boom"⟩
  obtain ⟨_, _, _, _, _, _, _, _, _, _, hf11, _, _, _⟩ := hf
  exact ⟨h1 true rfl, h7 "/x" rfl, h8 Unit "w" "T" (some ()) (some ()) rfl,
    h10 "main" winBoom rfl rfl, hf11 "main" winFocusBoom rfl rfl rfl,
    h13 "Ctrl+K" rfl⟩

/-- Claim C2: get_system_info always returns Ok, its platform field is one
of the documented std::env::consts::OS values, and its cpu_count field is
at least 1. -/
theorem get_system_info_ok_platform_cpu (env : SysEnv) :
    ∃ info, get_system_info env = Except.ok info ∧
      info.platform ∈ knownOSNames ∧ 1 ≤ info.cpu_count := by
  refine ⟨_, rfl, ?_, ?_⟩
  · show env.os.consts_OS ∈ knownOSNames
    cases env.os <;> decide
  · show 1 ≤ (match env.availableParallelism with
      | .ok n => n.val
      | .error _ => 1)
    cases env.availableParallelism with
    | ok n => exact n.property
    | error _ => exact le_refl 1

/-- Claim C3 fails as stated: get_performance_info embeds the current Unix
timestamp, so two invocations at timestamps 0 and 1 both return Ok but with
unequal values; the result is not a static literal. -/
theorem get_performance_info_not_constant :
    (∃ v, get_performance_info 0 = Except.ok v) ∧
    (∃ v, get_performance_info 1 = Except.ok v) ∧
    get_performance_info 0 ≠ get_performance_info 1 := by
  refine ⟨⟨_, rfl⟩, ⟨_, rfl⟩, ?_⟩
  intro h
  simp [get_performance_info] at h

/-- Claim C3 (amended): the memory_usage and cpu_usage fields returned by
get_performance_info are static hard coded literals, equal across any two
invocations, but the timestamp field is the invocation time, so the full
Ok values of two invocations are equal exactly when the two invocations
read the same Unix timestamp. -/
theorem get_performance_info_fields_static (t1 t2 : Int) :
    ∃ v1 v2, get_performance_info t1 = Except.ok v1 ∧
      get_performance_info t2 = Except.ok v2 ∧
      v1.memory_usage = v2.memory_usage ∧
      v1.cpu_usage = v2.cpu_usage ∧
      (v1 = v2 ↔ t1 = t2) := by
  refine ⟨_, _, rfl, rfl, rfl, rfl, ?_⟩
  constructor
  · intro h
    exact congrArg PerfInfo.timestamp h
  · intro h
    rw [h]

/-- Claim C4: get_performance_info always returns Ok, and the returned
value has memory_usage and cpu_usage both equal to the string Unknown. -/
theorem get_performance_info_unknown_fields (t : Int) :
    ∃ v, get_performance_info t = Except.ok v ∧
      v.memory_usage = "Unknown" ∧ v.cpu_usage = "Unknown" :=
  ⟨_, rfl, rfl, rfl⟩

/-- Claim C5: get_desktop_apps always returns Ok with exactly the fixed
three entry list, named File Manager, Terminal and Web Browser in that
order, with OS conditional paths and fixed icons; being a constant of the
compile time windows flag, any two invocations of one build return this
same value. -/
theorem get_desktop_apps_fixed_list (isWindows : Bool) :
    get_desktop_apps isWindows = Except.ok
      [ ⟨"File Manager", if isWindows then "explorer.exe" else "nautilus",
         "folder"⟩,
        ⟨"Terminal", if isWindows then "cmd.exe" else "gnome-terminal",
         "terminal"⟩,
        ⟨"Web Browser", if isWindows then "msedge.exe" else "firefox",
         "globe"⟩ ] ∧
    (get_desktop_apps isWindows).isOk = true :=
  ⟨rfl, rfl⟩

/-- Claim C6: whenever create_native_window returns Ok it has emitted the
event nyx:native-window-created carrying the new window label, and whenever
register_global_shortcut returns Ok the installed callback emits the event
nyx:global-shortcut carrying the registered accelerator when the shortcut
fires. -/
theorem native_window_and_shortcut_events :
    (∀ (D : Type) (app : AppHandle) (label title : String)
        (width height : Option D),
      (create_native_window app label title width height).1 = Except.ok () →
      Effect.emitAll "nyx:native-window-created" label ∈
        (create_native_window app label title width height).2) ∧
    (∀ (app : AppHandle) (acc : String),
      (register_global_shortcut app acc).1 = Except.ok () →
      (register_global_shortcut app acc).2 =
        some [Effect.emitAll "nyx:global-shortcut" acc]) := by
  constructor
  · intro D app label title width height h
    cases hb : app.buildWindowRes label title with
    | error e => simp [create_native_window, hb] at h
    | ok u =>
      cases he : app.emitAllRes "nyx:native-window-created" label with
      | error e => simp [create_native_window, hb, he] at h
      | ok v => simp [create_native_window, hb, he]
  · intro app acc h
    cases hr : app.registerRes acc with
    | error e => simp [register_global_shortcut, hr] at h
    | ok u => simp [register_global_shortcut, shortcut_callback, hr]

/-- Concrete instance of claim C6 at the all succeeding handle. -/
theorem native_window_and_shortcut_events_witness :
    Effect.emitAll "nyx:native-window-created" "w1" ∈
      (create_native_window appOk "w1" "T" (none : Option Unit) none).2 ∧
    (register_global_shortcut appOk "CmdOrCtrl+Shift+N").2 =
      some [Effect.emitAll "nyx:global-shortcut" "CmdOrCtrl+Shift+N"] :=
  ⟨native_window_and_shortcut_events.1 Unit appOk "w1" "T" none none rfl,
   native_window_and_shortcut_events.2 appOk "CmdOrCtrl+Shift+N" rfl⟩

/-- Claim C7: for every path naming a nonexistent executable the spawn
fails, and launch_external_app returns Err with an error string; the
function is total, so no panic is possible. -/
theorem launch_external_app_nonexistent_err (sys : Sys) (app_path : String)
    (h : sys.exeExists app_path = false) :
    ∃ s, launch_external_app sys app_path = Except.error s := by
  obtain ⟨e, he⟩ := sys.spawn_fail app_path h
  exact ⟨"Failed to launch app: " ++ e.toString,
    by simp [launch_external_app, he]⟩

/-- Concrete instance of claim C7 at a facility without executables. -/
theorem launch_external_app_nonexistent_err_witness :
    sysBoom.exeExists "/no/such/exe" = false ∧
    ∃ s, launch_external_app sysBoom "/no/such/exe" = Except.error s :=
  ⟨rfl, launch_external_app_nonexistent_err sysBoom "/no/such/exe" rfl⟩

/-- Claim C8: on a tray menu click with id quit the handler calls process
exit with status 0, and its trace consists of that exit alone, so no other
step of the handler runs after it. -/
theorem tray_quit_exits (app : AppHandle) :
    on_system_tray_event app (SystemTrayEvent.MenuItemClick "quit") =
      [Effect.exitProcess 0] := rfl

/-- Claim C9: on a tray menu click whose id is none of quit, show and hide
the handler attempts no framework operation at all: its trace is empty. -/
theorem tray_unknown_id_noop (app : AppHandle) (id : String)
    (hq : id ≠ "quit") (hs : id ≠ "show") (hh : id ≠ "hide") :
    on_system_tray_event app (SystemTrayEvent.MenuItemClick id) = [] := by
  simp [on_system_tray_event, hq, hs, hh]

/-- Concrete instance of claim C9 at the unknown id restart. -/
theorem tray_unknown_id_noop_witness :
    on_system_tray_event appOk (SystemTrayEvent.MenuItemClick "restart") = [] :=
  tray_unknown_id_noop appOk "restart" (by decide) (by decide) (by decide)

/-- Claim C10: when no window with the given label exists, both
focus_native_window and close_native_window return the Err string Window
not found and attempt no window operation: their traces are empty. -/
theorem native_window_not_found (app : AppHandle) (label : String)
    (h : app.getWindow label = none) :
    focus_native_window app label = (Except.error "Window not found", []) ∧
    close_native_window app label = (Except.error "Window not found", []) := by
  constructor <;> simp [focus_native_window, close_native_window, h]

/-- Concrete instance of claim C10 at the empty handle. -/
theorem native_window_not_found_witness :
    focus_native_window appEmpty "ghost" =
      (Except.error "Window not found", []) ∧
    close_native_window appEmpty "ghost" =
      (Except.error "Window not found", []) :=
  native_window_not_found appEmpty "ghost" rfl
